import Mathlib

/-!
Shallow embedding of `src/discordBot.py` (FalseBot).

The Python module defines two classes:
  * `discord_bot_connection` — the gateway session: opcode switch
    (`handle_message`), dispatch-event switch (`handle_dispatch`), the
    heartbeat loop (`heartbeat`), `identify`, `start`, and the
    opcode/dispatch registries.
  * `discord_chat_handler` — the chat match engine: `register_match`,
    `handle_message_create`, and the per-channel history buffer.

Modelling conventions:
  * Python dict/JSON records become structures carrying exactly the fields
    the source reads.
  * Side effects (prints, websocket sends, task scheduling, handler
    invocations) are collected in a `List Effect` trace, in program order.
  * A Python exception becomes `Except.error` carrying a `PyError`; effects
    already performed before the raise are kept in the trace.
  * Registered handler functions are external user code; invoking one is
    recorded as an effect carrying its identity, and registries store
    handler identifiers (`Nat`), mirroring Python object identity.
  * Python truthiness of an optional string (`if self.session_id:`) is
    `none` ↦ false, `some ""` ↦ false, otherwise true.
-/

/-- Python exceptions that the source can actually raise on the modelled
paths: `KeyError` (missing dict key), `NameError` (reference to an
undefined variable in an f-string), `TypeError` (subscripting `None`),
`IndexError` (list index / `pop` out of range). -/
inductive PyError where
  | keyError (key : String)
  | nameError (name : String)
  | typeError (msg : String)
  | indexError
deriving DecidableEq, Repr

/-- The `d` field of an outbound `send_payload` call, as far as the claims
need to distinguish it: the identify payload (token, properties, presence —
its exact contents are irrelevant to the claims) or a heartbeat carrying
the session's `self.sequence`. -/
inductive SendData where
  | identify
  | heartbeat (d : Option Int)
deriving DecidableEq, Repr

/-- Observable side effects of the source, in program order. -/
inductive Effect where
  | print (msg : String)
  | send (op : Int) (d : SendData)
  | startHeartbeat (interval : Nat)
  | sleepMs (interval : Nat)
  | callDispatchHandler (event : String)
  | callOpcodeHandler (opcode : Int)
  | invokeMatchHandler (funcId : Nat)
deriving DecidableEq, Repr

/- The `class opcodes` of the source: the Discord gateway opcode constants. -/
namespace opcodes

def DISPATCH : Int := 0

def HEARTBEAT : Int := 1

def IDENTIFY : Int := 2

def STATUS_UPDATE : Int := 3

def VOICE_STATUS_UPDATE : Int := 4

def VOICE_SERVER_PING : Int := 5

def RESUME : Int := 6

def RECONNECT : Int := 7

def REQUEST_GUILD_MEMBERS : Int := 8

def INVALID_SESSION : Int := 9

def HELLO : Int := 10

def HEARTBEAT_ACK : Int := 11

end opcodes

/-- The fields of a Discord user object that the source reads
(`event['user']`, `self.user['id']`, `self.user['username']`). -/
structure User where
  id : String
  username : String
deriving DecidableEq, Repr

/-- The fields of a guild object that the source reads
(`g['id']`, `self.guilds[gid]['unavailable']`). -/
structure Guild where
  id : String
  unavailable : Bool
deriving DecidableEq, Repr

/-- The `d` payload of an envelope, shaped as the branch that reads it
expects: `{heartbeat_interval}` for Hello, `{user, session_id, guilds}`
for READY, a guild object for GUILD_CREATE, or anything else (whose keys
the modelled paths never read). -/
inductive DVal where
  | hello (heartbeat_interval : Nat)
  | ready (user : User) (session_id : String) (guilds : List Guild)
  | guildCreate (g : Guild)
  | other
deriving DecidableEq, Repr

/-- The wire envelope `{"op": int, "d": any, "s": int|null, "t": string|null}`. -/
structure Envelope where
  op : Int
  d : DVal
  s : Option Int
  t : Option String
deriving DecidableEq, Repr

/-- Session state of one `discord_bot_connection`: `user`, `guilds`
(a dict keyed by guild id, modelled as an association list), `session_id`,
and the heartbeat fields `ack` and `sequence`, with their initial values
from the class body (`user = None`, `guilds = {}`, `session_id = None`,
`ack = True`, `sequence = None`). -/
structure BotState where
  user : Option User
  guilds : List (String × Guild)
  session_id : Option String
  ack : Bool
  sequence : Option Int
deriving DecidableEq, Repr

/-- The initial session state from the class-body assignments. -/
def initState : BotState :=
  { user := none, guilds := [], session_id := none, ack := true, sequence := none }

/-- The keys currently bound in `dispatch_registry` and `message_registry`;
`handle_message`/`handle_dispatch` only test membership and then invoke the
bound handler, which we record as an effect. -/
structure Registries where
  dispatch_keys : List String
  message_keys : List Int
deriving DecidableEq, Repr

/-- No registered handlers. -/
def emptyRegistries : Registries := { dispatch_keys := [], message_keys := [] }

/-- Python dict lookup on an association list. -/
def dictGet {β : Type} (d : List (String × β)) (k : String) : Option β :=
  match d with
  | [] => none
  | (k', v) :: rest => if k' = k then some v else dictGet rest k

/-- Python dict item assignment `d[k] = v` on an association list. -/
def dictSet {β : Type} (d : List (String × β)) (k : String) (v : β) :
    List (String × β) :=
  match d with
  | [] => [(k, v)]
  | (k', v') :: rest => if k' = k then (k, v) :: rest else (k', v') :: dictSet rest k v

/-- Sequencing of two effectful, fallible steps: if the first raises, its
trace is kept and the second never runs (Python exception propagation). -/
def pyBind {σ τ : Type} (r : List Effect × Except PyError σ)
    (f : σ → List Effect × Except PyError τ) : List Effect × Except PyError τ :=
  match r with
  | (effs, Except.error e) => (effs, Except.error e)
  | (effs, Except.ok s) =>
      let r2 := f s
      (effs ++ r2.1, r2.2)

/-- Python truthiness of `self.session_id`: `None` and `""` are falsy. -/
def pyTruthyStr (s : Option String) : Bool :=
  match s with
  | none => false
  | some str => str ≠ ""

/-- The event-type switch of `handle_dispatch(self, message)`, before the
registry call: `READY` warns when `self.session_id` is truthy, then
unconditionally assigns `self.user` and `self.session_id`, stores each
guild of the payload under its id, and prints the username and guild
count; `GUILD_CREATE` evaluates `self.guilds[gid]['unavailable']`
(a `KeyError` when `gid` is unknown), warns when that stored guild is
available — but the warning's f-string references the undefined name
`guild`, a `NameError` — and otherwise stores the event under `gid`. -/
def handle_dispatch_core (st : BotState) (message : Envelope) :
    List Effect × Except PyError BotState :=
  if message.t = some "READY" then
    match message.d with
    | DVal.ready u sid gs =>
        ((if pyTruthyStr st.session_id then
            [Effect.print "WARNING: Received repeat 'READY' Event although session is already running."]
          else []) ++
           [Effect.print ("My username is " ++ u.username),
            Effect.print ("I am in " ++ toString gs.length ++ " guilds")],
         Except.ok { st with user := some u, session_id := some sid,
                             guilds := gs.foldl (fun acc g => dictSet acc g.id g) st.guilds })
    | _ => ([], Except.error (PyError.keyError "user"))
  else if message.t = some "GUILD_CREATE" then
    match message.d with
    | DVal.guildCreate g =>
        (match dictGet st.guilds g.id with
         | none => ([], Except.error (PyError.keyError g.id))
         | some stored =>
             if ¬ stored.unavailable then
               ([], Except.error (PyError.nameError "guild"))
             else
               ([], Except.ok { st with guilds := dictSet st.guilds g.id g }))
    | _ => ([], Except.error (PyError.keyError "id"))
  else ([], Except.ok st)

/-- The tail of `handle_dispatch`: `if eventType in self.dispatch_registry:
await self.dispatch_registry[eventType](event)`. -/
def dispatch_registry_call (reg : Registries) (eventType : Option String) (st : BotState) :
    List Effect × Except PyError BotState :=
  match eventType with
  | some t =>
      if t ∈ reg.dispatch_keys then ([Effect.callDispatchHandler t], Except.ok st)
      else ([], Except.ok st)
  | none => ([], Except.ok st)

/-- `handle_dispatch(self, message)`: the event-type switch followed by
the registered-handler call. -/
def handle_dispatch (reg : Registries) (st : BotState) (message : Envelope) :
    List Effect × Except PyError BotState :=
  pyBind (handle_dispatch_core st message) (dispatch_registry_call reg message.t)

/-- The opcode switch of `handle_message(self, message)`, before the
registry call. The `DISPATCH` branch binds the local variable `sequence`
(the source writes `sequence = message['s']`, not `self.sequence = ...`,
so the session field is untouched) and defers to `handle_dispatch`;
`HEARTBEAT`, `RECONNECT` and `INVALID_SESSION` pass; `HELLO` reads
`heartbeat_interval` from the payload, prints, and schedules
`self.heartbeat(interval)`; `HEARTBEAT_ACK` sets `self.ack = True`; every
other opcode falls into the `else` whose f-string references the
undefined name `op`, a `NameError`. -/
def handle_message_core (reg : Registries) (st : BotState) (message : Envelope) :
    List Effect × Except PyError BotState :=
  if message.op = opcodes.DISPATCH then
    let _sequence := message.s
    handle_dispatch reg st message
  else if message.op = opcodes.HEARTBEAT then ([], Except.ok st)
  else if message.op = opcodes.RECONNECT then ([], Except.ok st)
  else if message.op = opcodes.INVALID_SESSION then ([], Except.ok st)
  else if message.op = opcodes.HELLO then
    match message.d with
    | DVal.hello interval =>
        ([Effect.print ("HELLO received, heartbeat_interval set to " ++ toString interval),
          Effect.startHeartbeat interval], Except.ok st)
    | _ => ([], Except.error (PyError.keyError "heartbeat_interval"))
  else if message.op = opcodes.HEARTBEAT_ACK then ([], Except.ok { st with ack := true })
  else ([], Except.error (PyError.nameError "op"))

/-- The tail of `handle_message`: `if opcode in self.message_registry:
await self.message_registry[opcode](message)`. -/
def opcode_registry_call (reg : Registries) (opcode : Int) (st : BotState) :
    List Effect × Except PyError BotState :=
  if opcode ∈ reg.message_keys then ([Effect.callOpcodeHandler opcode], Except.ok st)
  else ([], Except.ok st)

/-- `handle_message(self, message)`: the opcode switch followed by the
registered-handler call. -/
def handle_message (reg : Registries) (st : BotState) (message : Envelope) :
    List Effect × Except PyError BotState :=
  pyBind (handle_message_core reg st message) (opcode_registry_call reg message.op)

/-- `identify(self)`: one `send_payload(opcodes.IDENTIFY, payload)`. -/
def identify_effects : List Effect :=
  [Effect.send opcodes.IDENTIFY SendData.identify]

/-- The read loop of `start()`: `handle_message` on each received envelope
in order. -/
def read_loop (reg : Registries) (st : BotState) :
    List Envelope → List Effect × Except PyError BotState
  | [] => ([], Except.ok st)
  | m :: rest => pyBind (handle_message reg st m) (fun st' => read_loop reg st' rest)

/-- `start()` from the point the websocket is open: `await
self.identify()`, then the read loop. (The REST gateway lookup and the
socket itself are outside the model; `msgs` is the list of envelopes the
socket delivers.) -/
def start_trace (reg : Registries) (st : BotState) (msgs : List Envelope) :
    List Effect × Except PyError BotState :=
  (identify_effects ++ (read_loop reg st msgs).1, (read_loop reg st msgs).2)

/-- One cycle of the `heartbeat(self, interval)` loop: print the fatal
error when `self.ack` is false, send `{op: HEARTBEAT, d: self.sequence}`,
set `self.ack = False`, sleep `interval / 1000` seconds (i.e. `interval`
milliseconds). -/
def heartbeat_step (st : BotState) (interval : Nat) : List Effect × BotState :=
  ((if st.ack then []
    else [Effect.print "Fatal Error: Did not receive HEARTBEAT_ACK. Connection is dead."]) ++
     [Effect.send opcodes.HEARTBEAT (SendData.heartbeat st.sequence),
      Effect.sleepMs interval],
   { st with ack := false })

/-- `n` consecutive cycles of the heartbeat loop (the loop itself is
`while True`; `n` counts how many cycles have run). -/
def heartbeat_run (n : Nat) (st : BotState) (interval : Nat) : List Effect × BotState :=
  match n with
  | 0 => ([], st)
  | Nat.succ k =>
      let r := heartbeat_step st interval
      let r2 := heartbeat_run k r.2 interval
      (r.1 ++ r2.1, r2.2)

/-- Number of websocket sends in a trace. -/
def sendCount (l : List Effect) : Nat :=
  (l.filter (fun e => match e with | Effect.send _ _ => true | _ => false)).length

/-- Whether an effect is the Identify send. -/
def isIdentifySend (e : Effect) : Bool :=
  match e with
  | Effect.send op SendData.identify => op = opcodes.IDENTIFY
  | _ => false

/-- The fields of a chat message object that `handle_message_create`
reads: `message['channel_id']`, `message['author']['id']`,
`message['content']`. -/
structure Msg where
  channel_id : String
  author : User
  content : String
deriving DecidableEq, Repr

/-- One element of `match_registry[0]`: the dict
`{"matcher": matcher, "no_self_respond": no_self_respond}` built by
`register_match`. The matcher function object is identified by a `Nat`
reference (Python compares function objects by identity); its behaviour
is supplied separately as an environment `Nat → Msg → Bool`. -/
structure MatchEntry where
  matcher : Nat
  no_self_respond : Bool
deriving DecidableEq, Repr

/-- `match_registry = ([], [])`: the pair of parallel lists
`([MATCHERS], [FUNCTIONS])`, functions identified by reference. -/
def MatchRegistry : Type := List MatchEntry × List Nat

/-- `register_match(self, matcher, func, no_self_respond=True)`: wrap the
matcher in an entry dict; if an equal entry is already in
`match_registry[0]`, the warning's f-string references the undefined name
`expression`, a `NameError`; otherwise append the entry and the function
to the two parallel lists. -/
def register_match (r : MatchRegistry) (matcher : Nat) (funcId : Nat)
    (no_self_respond : Bool := true) : List Effect × Except PyError MatchRegistry :=
  let entry : MatchEntry := { matcher := matcher, no_self_respond := no_self_respond }
  if entry ∈ r.1 then ([], Except.error (PyError.nameError "expression"))
  else ([], Except.ok (r.1 ++ [entry], r.2 ++ [funcId]))

/-- `register_dispatch(self, event, func)`: warn when the event key is
already bound, then overwrite `dispatch_registry[event]` with the new
function. -/
def register_dispatch (registry : List (String × Nat)) (event : String) (funcId : Nat)
    (funcName : String) : List Effect × List (String × Nat) :=
  ((if (dictGet registry event).isSome then
      [Effect.print ("WARNING: Dispatch event " ++ event ++
        " already registered, re-registering to " ++ funcName)]
    else []),
   dictSet registry event funcId)

/-- Python dict lookup keyed by opcode (`Int`). -/
def dictGetI {β : Type} (d : List (Int × β)) (k : Int) : Option β :=
  match d with
  | [] => none
  | (k', v) :: rest => if k' = k then some v else dictGetI rest k

/-- Python dict item assignment keyed by opcode (`Int`). -/
def dictSetI {β : Type} (d : List (Int × β)) (k : Int) (v : β) : List (Int × β) :=
  match d with
  | [] => [(k, v)]
  | (k', v') :: rest => if k' = k then (k, v) :: rest else (k', v') :: dictSetI rest k v

/-- `register_message(self, opcode, func)`: warn when the opcode is
already bound, then overwrite `message_registry[opcode]` with the new
function. -/
def register_message (registry : List (Int × Nat)) (opcode : Int) (funcId : Nat)
    (funcName : String) : List Effect × List (Int × Nat) :=
  ((if (dictGetI registry opcode).isSome then
      [Effect.print ("WARNING: Opcode " ++ toString opcode ++
        " already registered, re-registering to " ++ funcName)]
    else []),
   dictSetI registry opcode funcId)

/-- The matcher loop of `handle_message_create`: for each entry, evaluate
`message['author']['id'] == self.bot_connection.user['id']` — a
`TypeError` when `user` is still `None` — skip the entry when the message
is the bot's own and `no_self_respond` holds, otherwise evaluate the
matcher and, on a match, await `match_registry[1][i](message)`. `env`
gives each matcher reference its behaviour; `i` is the running
`enumerate` index into the functions list. -/
def run_matchers (env : Nat → Msg → Bool) (user : Option User)
    (funcs : List Nat) (message : Msg) :
    List MatchEntry → Nat → List Effect × Except PyError Unit
  | [], _ => ([], Except.ok ())
  | entry :: rest, i =>
      match user with
      | none => ([], Except.error (PyError.typeError "NoneType object is not subscriptable"))
      | some u =>
          if message.author.id = u.id ∧ entry.no_self_respond then
            run_matchers env user funcs message rest (i + 1)
          else if env entry.matcher message then
            match funcs.get? i with
            | none => ([], Except.error PyError.indexError)
            | some f =>
                pyBind ([Effect.invokeMatchHandler f], Except.ok ())
                  (fun _ => run_matchers env user funcs message rest (i + 1))
          else run_matchers env user funcs message rest (i + 1)

/-- The class-level attributes of `discord_chat_handler`:
`channelBuffer = {}` and `match_registry = ([], [])` are assigned in the
class body, and every method only mutates them in place
(`append`, `pop`, item assignment), never rebinds them on the instance —
so there is exactly one copy for the whole class. -/
structure ChatClassVars where
  channelBuffer : List (String × List (Option Msg))
  match_registry : MatchRegistry

/-- The class-attribute values as they stand when the module is loaded. -/
def chatClassInit : ChatClassVars :=
  { channelBuffer := [], match_registry := ([], []) }

/-- The buffering step of `handle_message_create`: when `bufferSize > 0`,
create the channel's buffer as `[None] * bufferSize` if absent, then
`pop(0)` (an `IndexError` on an empty list) and append the message. -/
def buffer_step (cls : ChatClassVars) (bufferSize : Nat) (message : Msg) :
    Except PyError ChatClassVars :=
  if bufferSize > 0 then
    match
      (match dictGet cls.channelBuffer message.channel_id with
       | none => List.replicate bufferSize (none : Option Msg)
       | some b => b) with
    | [] => Except.error PyError.indexError
    | _ :: tail =>
        Except.ok { cls with
          channelBuffer := dictSet cls.channelBuffer message.channel_id
            (tail ++ [some message]) }
  else Except.ok cls

/-- `handle_message_create(self, message)`: the buffering step, then the
matcher loop over `match_registry`. `bot_user` is
`self.bot_connection.user`. -/
def handle_message_create (cls : ChatClassVars) (bufferSize : Nat)
    (bot_user : Option User) (env : Nat → Msg → Bool) (message : Msg) :
    List Effect × Except PyError ChatClassVars :=
  match buffer_step cls bufferSize message with
  | Except.error e => ([], Except.error e)
  | Except.ok cls' =>
      let r := run_matchers env bot_user cls'.match_registry.2 message
        cls'.match_registry.1 0
      (r.1, r.2.map (fun _ => cls'))

/-- Attribute lookup `self.match_registry` on any instance of
`discord_chat_handler`: no method ever creates an instance-level
`match_registry`, so the lookup falls through to the single class
attribute, whatever the instance. -/
def observed_match_registry (_instance : Nat) (cls : ChatClassVars) : MatchRegistry :=
  cls.match_registry

/-- Attribute lookup `self.channelBuffer` on any instance: same
fall-through to the class attribute. -/
def observed_channelBuffer (_instance : Nat) (cls : ChatClassVars) :
    List (String × List (Option Msg)) :=
  cls.channelBuffer

/-- Attribute lookup `self.dispatch_registry` on any instance of
`discord_bot_connection`: `register_dispatch` mutates the class dict by
item assignment and never rebinds it, so every instance observes the same
dict. -/
def observed_dispatch_registry (_instance : Nat) (registry : List (String × Nat)) :
    List (String × Nat) :=
  registry

/-! ### Helper lemmas about sequencing -/

lemma mem_pyBind {σ τ : Type} {e : Effect} {r : List Effect × Except PyError σ}
    {f : σ → List Effect × Except PyError τ} (h : e ∈ (pyBind r f).1) :
    e ∈ r.1 ∨ ∃ s, e ∈ (f s).1 := by
  obtain ⟨effs, res⟩ := r
  cases res with
  | error err => simp [pyBind] at h; exact Or.inl h
  | ok s =>
      simp [pyBind] at h
      rcases h with h | h
      · exact Or.inl h
      · exact Or.inr ⟨s, h⟩

lemma pyBind_ok_iff {σ τ : Type} {r : List Effect × Except PyError σ}
    {f : σ → List Effect × Except PyError τ} {t : τ} :
    (pyBind r f).2 = Except.ok t ↔ ∃ s, r.2 = Except.ok s ∧ (f s).2 = Except.ok t := by
  obtain ⟨effs, res⟩ := r
  cases res with
  | error err => simp [pyBind]
  | ok s => simp [pyBind]

/-! ### Concrete fixtures used by the claim theorems -/

/-- A dispatch envelope with sequence number 5 whose event type is none of
the specially handled ones. -/
def dispatchEnv5 : Envelope :=
  { op := 0, d := DVal.other, s := some 5, t := some "TYPING_START" }

/-- A Hello envelope with the documentation's example interval. -/
def helloEnv : Envelope :=
  { op := 10, d := DVal.hello 41250, s := none, t := none }

/-- An envelope with an opcode outside the known range 0–11. -/
def unknownEnv : Envelope :=
  { op := 12, d := DVal.other, s := none, t := none }

/-- A GUILD_CREATE dispatch for guild "G1", marked available. -/
def guildCreateEnv : Envelope :=
  { op := 0, d := DVal.guildCreate { id := "G1", unavailable := false },
    s := none, t := some "GUILD_CREATE" }

/-- C1. The spec says the Dispatch branch records `envelope.s` as the
session's `sequence`. The source instead binds a *local* variable
(`sequence = message['s']`), so the session state — including the
`sequence` field the heartbeat later sends — is completely unchanged:
after a dispatch with `s = 5` the state is still `initState`, whose
`sequence` is `none`, not `5`. -/
theorem dispatch_does_not_record_sequence :
    handle_message emptyRegistries initState dispatchEnv5 = ([], Except.ok initState)
      ∧ initState.sequence ≠ some 5 := by
  constructor
  · rfl
  · simp [initState]

/-- C5. One cycle of the heartbeat loop: the stale-connection report comes
first and appears exactly when `ack` is false, then exactly one send of
`{op: HEARTBEAT, d: sequence}`, then the sleep of `interval` milliseconds;
the post-state is the input state with `ack` reset to false. Across `n`
cycles, exactly `n` heartbeats are sent, and `ack` is false after every
cycle. -/
theorem heartbeat_cycle_spec (st : BotState) (interval : Nat) :
    (heartbeat_step st interval).1 =
      (if st.ack then []
       else [Effect.print "Fatal Error: Did not receive HEARTBEAT_ACK. Connection is dead."]) ++
        [Effect.send opcodes.HEARTBEAT (SendData.heartbeat st.sequence),
         Effect.sleepMs interval]
      ∧ (heartbeat_step st interval).2 = { st with ack := false }
      ∧ sendCount (heartbeat_step st interval).1 = 1
      ∧ ∀ n, sendCount (heartbeat_run n st interval).1 = n
        ∧ (heartbeat_run (n + 1) st interval).2.ack = false := by
  refine ⟨rfl, rfl, ?_, ?_⟩
  · cases h : st.ack <;> simp [heartbeat_step, sendCount, h]
  · intro n
    constructor
    · induction n generalizing st with
      | zero => simp [heartbeat_run, sendCount]
      | succ k ih =>
          simp only [heartbeat_run, sendCount, List.filter_append, List.length_append]
          have h1 : sendCount (heartbeat_step st interval).1 = 1 := by
            cases h : st.ack <;> simp [heartbeat_step, sendCount, h]
          simp only [sendCount] at h1 ih
          rw [h1, ih]
          omega
    · induction n generalizing st with
      | zero =>
          simp [heartbeat_run, heartbeat_step]
      | succ k ih =>
          have : heartbeat_run (k + 1 + 1) st interval =
              let r := heartbeat_step st interval
              let r2 := heartbeat_run (k + 1) r.2 interval
              (r.1 ++ r2.1, r2.2) := rfl
          rw [this]
          exact ih (heartbeat_step st interval).2

/-- C6. GUILD_CREATE for a guild id that is not yet in `self.guilds`
raises `KeyError` (the source indexes `self.guilds[gid]` inside the
duplicate test before ever storing), so a previously unknown guild does
*not* succeed; and when the id is present with the stored guild available,
the duplicate warning itself raises `NameError` (its f-string references
the undefined name `guild`). Only a stored-unavailable guild is replaced
without error. -/
theorem guild_create_unknown_guild_raises :
    handle_dispatch emptyRegistries initState guildCreateEnv =
      ([], Except.error (PyError.keyError "G1"))
      ∧ handle_dispatch emptyRegistries
          { initState with guilds := [("G1", { id := "G1", unavailable := false })] }
          guildCreateEnv =
        ([], Except.error (PyError.nameError "guild"))
      ∧ (handle_dispatch emptyRegistries
          { initState with guilds := [("G1", { id := "G1", unavailable := true })] }
          guildCreateEnv).2 =
        Except.ok { initState with
          guilds := [("G1", { id := "G1", unavailable := false })] } := by
  refine ⟨rfl, rfl, rfl⟩

/-- C7. An envelope with the unknown opcode 12 does not produce a warning
and does not reach the opcode registry (here opcode 12 *is* registered):
the `else` branch's f-string references the undefined name `op`, so
`handle_message` raises `NameError` with an empty trace and no state
change. -/
theorem unknown_opcode_raises :
    handle_message { dispatch_keys := [], message_keys := [12] } initState unknownEnv =
      ([], Except.error (PyError.nameError "op")) := by
  rfl

/-- C8. Re-registering in the opcode and dispatch registries warns and
overwrites as claimed, but re-registering an identical matcher in the
match registry raises `NameError` (the warning's f-string references the
undefined name `expression`), and a successful `register_match` *appends*
to the parallel lists rather than replacing anything. -/
theorem duplicate_match_registration_raises :
    (pyBind (register_match ([], []) 7 3) (fun r => register_match r 7 4)).2 =
      Except.error (PyError.nameError "expression")
      ∧ register_dispatch (register_dispatch [] "MESSAGE_CREATE" 1 "f").2
          "MESSAGE_CREATE" 2 "g" =
        ([Effect.print "WARNING: Dispatch event MESSAGE_CREATE already registered, re-registering to g"],
         [("MESSAGE_CREATE", 2)])
      ∧ register_message (register_message [] 11 1 "f").2 11 2 "g" =
        ([Effect.print "WARNING: Opcode 11 already registered, re-registering to g"],
         [(11, 2)])
      ∧ register_match ([{ matcher := 8, no_self_respond := true }], [5]) 7 3 =
        ([], Except.ok ([{ matcher := 8, no_self_respond := true },
                         { matcher := 7, no_self_respond := true }], [5, 3])) := by
  refine ⟨rfl, rfl, rfl, rfl⟩

/-- The first READY's user and session id. -/
def userA : User := { id := "U1", username := "first" }

/-- The second READY's user and session id. -/
def userB : User := { id := "U2", username := "second" }

/-- A READY dispatch carrying user `userA` and session id "A". -/
def readyEnvA : Envelope :=
  { op := 0, d := DVal.ready userA "A" [], s := some 1, t := some "READY" }

/-- A READY dispatch carrying user `userB` and session id "B". -/
def readyEnvB : Envelope :=
  { op := 0, d := DVal.ready userB "B" [], s := some 2, t := some "READY" }

/-- Processing two READY dispatches in a row from the initial state. -/
def twoReadyRun : List Effect × Except PyError BotState :=
  pyBind (handle_message emptyRegistries initState readyEnvA)
    (fun st => handle_message emptyRegistries st readyEnvB)

/-- C3 counterexample. After a first READY stored session id "A" and user
`userA`, a second READY with session id "B" and user `userB` does warn,
but the stored `session_id` and `user` do *not* stay unchanged: the final
state carries "B" and `userB`. -/
theorem second_ready_overwrites_counterexample :
    twoReadyRun.2 = Except.ok
      { user := some userB, guilds := [], session_id := some "B",
        ack := true, sequence := none }
    ∧ Effect.print "WARNING: Received repeat 'READY' Event although session is already running."
        ∈ twoReadyRun.1
    ∧ userB ≠ userA ∧ "B" ≠ "A" := by
  refine ⟨rfl, ?_, by simp [userA, userB], by simp⟩
  have h : twoReadyRun.1 =
      [Effect.print "My username is first", Effect.print "I am in 0 guilds",
       Effect.print "WARNING: Received repeat 'READY' Event although session is already running.",
       Effect.print "My username is second", Effect.print "I am in 0 guilds"] := rfl
  rw [h]
  simp

/-- C3 amended. When `session_id` is already truthy, a READY dispatch
prints the duplicate warning and then *overwrites* `user` and
`session_id` with the new payload's values (the source has no `else`:
the assignments run unconditionally). -/
theorem ready_warns_and_overwrites (reg : Registries) (st : BotState) (u : User)
    (sid : String) (gs : List Guild) (s : Option Int)
    (h : pyTruthyStr st.session_id = true) :
    ∃ st',
      (handle_dispatch reg st { op := 0, d := DVal.ready u sid gs, s := s, t := some "READY" }).2
        = Except.ok st'
      ∧ st'.user = some u ∧ st'.session_id = some sid
      ∧ Effect.print "WARNING: Received repeat 'READY' Event although session is already running."
          ∈ (handle_dispatch reg st { op := 0, d := DVal.ready u sid gs, s := s, t := some "READY" }).1 := by
  refine ⟨{ st with user := some u, session_id := some sid, guilds := gs.foldl (fun acc g => dictSet acc g.id g) st.guilds }, ?_, rfl, rfl, ?_⟩
  · unfold handle_dispatch handle_dispatch_core dispatch_registry_call
    by_cases hk : "READY" ∈ reg.dispatch_keys <;> simp [h, hk, pyBind]
  · unfold handle_dispatch handle_dispatch_core dispatch_registry_call
    by_cases hk : "READY" ∈ reg.dispatch_keys <;> simp [h, hk, pyBind]

/-- C3 amended witness: a concrete duplicate READY. -/
theorem ready_warns_and_overwrites_witness :
    pyTruthyStr (some "A") = true
    ∧ ∃ st',
      (handle_dispatch emptyRegistries { initState with session_id := some "A" } readyEnvB).2
        = Except.ok st'
      ∧ st'.user = some userB ∧ st'.session_id = some "B"
      ∧ Effect.print "WARNING: Received repeat 'READY' Event although session is already running."
          ∈ (handle_dispatch emptyRegistries { initState with session_id := some "A" } readyEnvB).1 :=
  ⟨rfl, ready_warns_and_overwrites emptyRegistries { initState with session_id := some "A" }
    userB "B" [] (some 2) rfl⟩

/-- No effect of the `handle_dispatch` event switch is the Identify send. -/
lemma handle_dispatch_core_no_identify (st : BotState) (m : Envelope) :
    (handle_dispatch_core st m).1.filter isIdentifySend = [] := by
  unfold handle_dispatch_core
  repeat' split
  all_goals simp [isIdentifySend]

/-- If neither side of a `pyBind` contributes effects selected by `p`,
neither does the composition. -/
lemma pyBind_filter_nil {σ τ : Type} (p : Effect → Bool)
    (r : List Effect × Except PyError σ) (f : σ → List Effect × Except PyError τ)
    (h1 : r.1.filter p = []) (h2 : ∀ s, (f s).1.filter p = []) :
    (pyBind r f).1.filter p = [] := by
  obtain ⟨effs, res⟩ := r
  cases res with
  | error e => simpa [pyBind] using h1
  | ok s =>
      simp only [pyBind, List.filter_append]
      simp only at h1
      rw [h1, h2 s]
      rfl

/-- The dispatch-registry call never sends anything. -/
lemma dispatch_registry_call_no_identify (reg : Registries) (t : Option String)
    (st : BotState) : (dispatch_registry_call reg t st).1.filter isIdentifySend = [] := by
  unfold dispatch_registry_call
  repeat' split
  all_goals simp [isIdentifySend]

/-- `handle_dispatch` never sends the Identify envelope. -/
lemma handle_dispatch_no_identify (reg : Registries) (st : BotState) (m : Envelope) :
    (handle_dispatch reg st m).1.filter isIdentifySend = [] := by
  unfold handle_dispatch
  exact pyBind_filter_nil _ _ _ (handle_dispatch_core_no_identify st m)
    (fun s => dispatch_registry_call_no_identify reg m.t s)

/-- No branch of the opcode switch sends the Identify envelope. -/
lemma handle_message_core_no_identify (reg : Registries) (st : BotState) (m : Envelope) :
    (handle_message_core reg st m).1.filter isIdentifySend = [] := by
  unfold handle_message_core
  repeat' split
  all_goals first
    | exact handle_dispatch_no_identify reg st m
    | simp [isIdentifySend]

/-- The opcode-registry call never sends anything. -/
lemma opcode_registry_call_no_identify (reg : Registries) (opcode : Int)
    (st : BotState) : (opcode_registry_call reg opcode st).1.filter isIdentifySend = [] := by
  unfold opcode_registry_call
  split <;> simp [isIdentifySend]

/-- `handle_message` never sends the Identify envelope, whatever the
envelope and state. -/
lemma handle_message_no_identify (reg : Registries) (st : BotState) (m : Envelope) :
    (handle_message reg st m).1.filter isIdentifySend = [] := by
  unfold handle_message
  exact pyBind_filter_nil _ _ _ (handle_message_core_no_identify reg st m)
    (fun s => opcode_registry_call_no_identify reg m.op s)

/-- The read loop never sends the Identify envelope. -/
lemma read_loop_no_identify (reg : Registries) (st : BotState) (msgs : List Envelope) :
    (read_loop reg st msgs).1.filter isIdentifySend = [] := by
  induction msgs generalizing st with
  | nil => rfl
  | cons m rest ih =>
      unfold read_loop
      exact pyBind_filter_nil _ _ _ (handle_message_no_identify reg st m)
        (fun s => ih s)

/-- C2 counterexample. Processing the Hello envelope does *not* trigger
`identify()`: its trace holds no Identify send at all. The Identify send
instead happens in `start()` before any envelope is processed: in a run
that receives the Hello, the Identify send is the very first effect,
i.e. it was sent before the Hello was handled. -/
theorem hello_does_not_trigger_identify :
    (handle_message emptyRegistries initState helloEnv).1.filter isIdentifySend = []
    ∧ (start_trace emptyRegistries initState [helloEnv]).1.head? =
        some (Effect.send opcodes.IDENTIFY SendData.identify)
    ∧ (handle_message emptyRegistries initState helloEnv).1 =
        [Effect.print "HELLO received, heartbeat_interval set to 41250",
         Effect.startHeartbeat 41250] := by
  exact ⟨rfl, rfl, rfl⟩

/-- C2 amended. `identify` is sent exactly once per `start()` run, and it
is sent immediately after the websocket opens, *before* any envelope
(Hello included) is processed: the Identify send is the first effect of
the run's trace, and it is the only Identify send in the whole trace; the
Hello handler only starts the heartbeat task. -/
theorem identify_sent_once_at_connection (reg : Registries) (st : BotState)
    (msgs : List Envelope) :
    (start_trace reg st msgs).1.filter isIdentifySend =
      [Effect.send opcodes.IDENTIFY SendData.identify]
    ∧ (start_trace reg st msgs).1.head? =
        some (Effect.send opcodes.IDENTIFY SendData.identify) := by
  constructor
  · show ((identify_effects ++ (read_loop reg st msgs).1).filter isIdentifySend) = _
    rw [List.filter_append, read_loop_no_identify reg st msgs]
    rfl
  · rfl

/-- The buffering step succeeds whenever the channel's existing buffer is
not the empty list (a fresh channel gets `bufferSize` `None` slots first),
and it never touches the match registry. -/
lemma buffer_step_ok (cls : ChatClassVars) (bufferSize : Nat) (m : Msg)
    (hbuf : dictGet cls.channelBuffer m.channel_id ≠ some []) :
    ∃ cls', buffer_step cls bufferSize m = Except.ok cls'
      ∧ cls'.match_registry = cls.match_registry := by
  unfold buffer_step
  by_cases h : bufferSize > 0
  · rw [if_pos h]
    cases hg : dictGet cls.channelBuffer m.channel_id with
    | none =>
        cases bufferSize with
        | zero => omega
        | succ k => exact ⟨_, rfl, rfl⟩
    | some b =>
        cases b with
        | nil => exact absurd hg hbuf
        | cons a tail => exact ⟨_, rfl, rfl⟩
  · rw [if_neg h]
    exact ⟨cls, rfl, rfl⟩

/-- C4. With matchers `[A, B, C]` bound to handlers `fa, fb, fc`, none
suppressed by the self-reply rule, where `A` and `C` match the message and
`B` does not, `handle_message_create` invokes exactly `fa` then `fc` — in
registration order, exhaustively over all entries — and completes
normally. Evaluation is sequential: `fa`'s awaited invocation appears in
the trace before `C` is even reached. -/
theorem match_fanout_order_exhaustive
    (env : Nat → Msg → Bool) (u : User) (m : Msg)
    (cb : List (String × List (Option Msg))) (bufferSize : Nat)
    (A B C : MatchEntry) (fa fb fc : Nat)
    (hbuf : dictGet cb m.channel_id ≠ some [])
    (hA : env A.matcher m = true) (hB : env B.matcher m = false)
    (hC : env C.matcher m = true)
    (hsA : ¬(m.author.id = u.id ∧ A.no_self_respond = true))
    (hsB : ¬(m.author.id = u.id ∧ B.no_self_respond = true))
    (hsC : ¬(m.author.id = u.id ∧ C.no_self_respond = true)) :
    (handle_message_create { channelBuffer := cb, match_registry := ([A, B, C], [fa, fb, fc]) }
        bufferSize (some u) env m).1 =
      [Effect.invokeMatchHandler fa, Effect.invokeMatchHandler fc]
    ∧ (handle_message_create { channelBuffer := cb, match_registry := ([A, B, C], [fa, fb, fc]) }
        bufferSize (some u) env m).2.isOk = true := by
  obtain ⟨cls', hb, hreg⟩ := buffer_step_ok
    { channelBuffer := cb, match_registry := ([A, B, C], [fa, fb, fc]) } bufferSize m hbuf
  have hrun : run_matchers env (some u) cls'.match_registry.2 m cls'.match_registry.1 0 =
      ([Effect.invokeMatchHandler fa, Effect.invokeMatchHandler fc], Except.ok ()) := by
    rw [hreg]
    simp [run_matchers, hsA, hsB, hsC, hA, hB, hC, pyBind]
  unfold handle_message_create
  rw [hb]
  simp [hrun, Except.isOk, Except.map, Except.toBool]

/-- C4 witness: a concrete message, three concrete matchers (content is
"ping", content is "x", content nonempty), and a non-self author. -/
theorem match_fanout_order_exhaustive_witness :
    (handle_message_create
        { channelBuffer := [], match_registry := ([⟨0, true⟩, ⟨1, true⟩, ⟨2, true⟩], [100, 101, 102]) }
        3 (some { id := "BOT", username := "bot" })
        (fun n msg => match n with
          | 0 => msg.content = "ping"
          | 1 => msg.content = "x"
          | _ => msg.content ≠ "")
        { channel_id := "C1", author := { id := "U9", username := "alice" }, content := "ping" }).1 =
      [Effect.invokeMatchHandler 100, Effect.invokeMatchHandler 102] := by
  exact (match_fanout_order_exhaustive
    (fun n msg => match n with
      | 0 => msg.content = "ping"
      | 1 => msg.content = "x"
      | _ => msg.content ≠ "")
    { id := "BOT", username := "bot" }
    { channel_id := "C1", author := { id := "U9", username := "alice" }, content := "ping" }
    [] 3 ⟨0, true⟩ ⟨1, true⟩ ⟨2, true⟩ 100 101 102
    (by simp [dictGet]) (by decide) (by decide) (by decide)
    (by simp) (by simp) (by simp)).1

/-- C10. When the session's `user` is still `None` (no READY processed)
and at least one matcher is registered, `handle_message_create` raises
`TypeError` at the self-message check (`self.bot_connection.user['id']`
subscripts `None`) before any matcher predicate can influence the
outcome and before any handler is invoked — the result is the same
whatever the registered predicates `env` are, with an empty trace. -/
theorem matching_unsafe_without_user (cls : ChatClassVars) (bufferSize : Nat)
    (env : Nat → Msg → Bool) (m : Msg) (entry : MatchEntry) (rest : List MatchEntry)
    (hreg : cls.match_registry.1 = entry :: rest)
    (hbuf : dictGet cls.channelBuffer m.channel_id ≠ some []) :
    handle_message_create cls bufferSize none env m =
      ([], Except.error (PyError.typeError "NoneType object is not subscriptable")) := by
  obtain ⟨cls', hb, hregeq⟩ := buffer_step_ok cls bufferSize m hbuf
  unfold handle_message_create
  rw [hb]
  have hrun : run_matchers env none cls'.match_registry.2 m cls'.match_registry.1 0 =
      ([], Except.error (PyError.typeError "NoneType object is not subscriptable")) := by
    rw [hregeq, hreg]
    rfl
  simp [hrun, Except.map]

/-- C10 witness: one registered matcher, a fresh channel, user unset. -/
theorem matching_unsafe_without_user_witness :
    handle_message_create
        { channelBuffer := [], match_registry := ([⟨0, true⟩], [9]) } 3 none
        (fun _ msg => msg.content = "ping")
        { channel_id := "C1", author := { id := "U9", username := "alice" }, content := "ping" } =
      ([], Except.error (PyError.typeError "NoneType object is not subscriptable")) :=
  matching_unsafe_without_user
    { channelBuffer := [], match_registry := ([⟨0, true⟩], [9]) } 3
    (fun _ msg => msg.content = "ping")
    { channel_id := "C1", author := { id := "U9", username := "alice" }, content := "ping" }
    ⟨0, true⟩ [] rfl (by simp [dictGet])

/-- `register_match` invoked through instance `i` of
`discord_chat_handler`: attribute lookup resolves `self.match_registry`
to the class attribute (no instance attribute exists), and the appends
mutate that shared object in place. -/
def register_match_on (i : Nat) (cls : ChatClassVars) (matcher funcId : Nat) :
    List Effect × Except PyError ChatClassVars :=
  let r := register_match (observed_match_registry i cls) matcher funcId
  (r.1, r.2.map (fun reg => { cls with match_registry := reg }))

/-- `handle_message_create` invoked through instance `i`: both the buffer
and the registry it reads resolve to the shared class attributes. -/
def handle_message_create_on (i : Nat) (cls : ChatClassVars) (bufferSize : Nat)
    (bot_user : Option User) (env : Nat → Msg → Bool) (message : Msg) :
    List Effect × Except PyError ChatClassVars :=
  handle_message_create
    { channelBuffer := observed_channelBuffer i cls,
      match_registry := observed_match_registry i cls }
    bufferSize bot_user env message

/-- A message in channel "C1" used for the shared-buffer demonstration. -/
def msgC1 : Msg :=
  { channel_id := "C1", author := { id := "U1", username := "alice" }, content := "hi" }

/-- C9. Registries and channel buffers are class-level, not per-instance:
from the freshly loaded class state, a matcher registered through
instance 1 is observed by *every* instance `j` (the registry every
instance sees grows from 0 to 1 entries); a dispatch handler registered
through connection 1 is looked up successfully by every connection `j`;
and a message buffered by instance 1's `handle_message_create` appears in
the channel buffer observed by every instance `j`. -/
theorem registries_and_buffers_shared_across_instances :
    (∀ j : Nat, (register_match_on 1 chatClassInit 7 3).2.map
        (fun cls => (observed_match_registry j cls).1.length) = Except.ok 1)
    ∧ (∀ j : Nat, (observed_match_registry j chatClassInit).1.length = 0)
    ∧ (∀ j : Nat, dictGet (observed_dispatch_registry j
          (register_dispatch (observed_dispatch_registry 1 []) "MESSAGE_CREATE" 7
            "handle_message_create").2) "MESSAGE_CREATE" = some 7)
    ∧ (∀ j : Nat, (handle_message_create_on 1 chatClassInit 3 none (fun _ _ => false) msgC1).2.map
        (fun cls => (observed_channelBuffer j cls).map Prod.fst) = Except.ok ["C1"])
    ∧ (∀ j : Nat, (observed_channelBuffer j chatClassInit).length = 0) := by
  exact ⟨fun j => rfl, fun j => rfl, fun j => rfl, fun j => rfl, fun j => rfl⟩
